import Mathlib

/-!
Verification of the EventRecorder subsystem of
`src/server/scripts/Custom/EventRecorder/EventRecorder.cpp`.

The recorder is shallowly embedded as a pure state-transition system:

* `RecState` mirrors the private fields of class `EventRecorder`
  (`_enabled`, `_active`, `_sessionName`, `_maxEvents`, `_eventCount`,
  `_mapFilter`, `_instanceFilter`, `_radius`, `_recorderX/Y/Z`,
  `_recorderMapId`, `_sessionStart`, `_outFile`).  The `std::ofstream`
  is modelled by a Boolean `outFileOpen`, the name of the opened file, and
  the list `outLines` of lines appended so far; the one-time
  `LOG_ERROR` cap diagnostic emitted by `WriteEvent` is modelled by the
  counter `diagCount`.
* `uint32` counters are `Nat` with an explicit `% 4294967296` where the
  code increments them; float coordinates and radii are modelled with
  exact rationals (the code's comparisons are embedded verbatim on `ℚ`).
* Wall-clock values (`GetSessionTime`, the timestamped file name, the
  steady-clock start instant) are environment inputs: each operation that
  reads the clock takes the already-formatted value as a parameter.
* `Unit*`, `Aura*`, `AuraApplication*`, `SpellInfo const*` arguments are
  `Option` values of small records carrying exactly the fields the
  recorder reads (map id, position, instance id, name, guid, entry,
  creature/player discrimination, spell id and name).

Every definition is translated line by line from the C++ source; the
mutex (all operations run under one lock) makes the sequential
state-transition semantics faithful.
-/

namespace EventRecorder

set_option maxRecDepth 16000

/-- `2^32`, the modulus of the `uint32` counters. -/
def U32 : Nat := 4294967296

/-- Discriminates `Unit::IsCreature()` / `Unit::IsPlayer()` / neither,
as tested in `EventRecorder::FormatUnit`. -/
inductive UnitKind where
  | creature
  | player
  | generic
deriving DecidableEq, Repr

/-- The fields of a game `Unit` that the recorder reads: `GetMapId`,
`GetPosition{X,Y,Z}`, `GetInstanceId`, `GetName`, `GetGUID().ToString()`,
`GetEntry`, and the creature/player discrimination. -/
structure GameUnit where
  kind : UnitKind
  entry : Nat
  name : String
  guid : String
  mapId : Nat
  instanceId : Nat
  posX : ℚ
  posY : ℚ
  posZ : ℚ
deriving DecidableEq, Repr

/-- The fields of `SpellInfo` the recorder reads: `Id` and `SpellName[0]`
(a possibly-null C string, hence `Option String`). -/
structure SpellInfoRec where
  id : Nat
  spellName : Option String
deriving DecidableEq, Repr

/-- An `Aura`: the recorder only calls `GetSpellInfo()`, which may return
null. -/
structure AuraRec where
  spellInfo : Option SpellInfoRec
deriving DecidableEq, Repr

/-- An `AuraApplication`: the recorder only calls `GetBase()`, which may
return null. -/
structure AuraAppRec where
  base : Option AuraRec
deriving DecidableEq, Repr

/-- The state of the singleton `EventRecorder` object. -/
structure RecState where
  enabled : Bool
  active : Bool
  sessionName : String
  outputDir : String
  maxEvents : Nat
  eventCount : Nat
  mapFilter : Nat
  instanceFilter : Nat
  radius : ℚ
  recorderX : ℚ
  recorderY : ℚ
  recorderZ : ℚ
  recorderMapId : Nat
  sessionStart : Nat
  outFileOpen : Bool
  outFileName : String
  outLines : List String
  diagCount : Nat
deriving DecidableEq, Repr

/-- The default-constructed recorder: the in-class initialisers of
`EventRecorder.h` (`_enabled = false`, `_active = false`,
`_maxEvents = 100000`, counters and filters zero, no file open). -/
def initState : RecState :=
  { enabled := false
    active := false
    sessionName := ""
    outputDir := ""
    maxEvents := 100000
    eventCount := 0
    mapFilter := 0
    instanceFilter := 0
    radius := 0
    recorderX := 0
    recorderY := 0
    recorderZ := 0
    recorderMapId := 0
    sessionStart := 0
    outFileOpen := false
    outFileName := ""
    outLines := []
    diagCount := 0 }

/-- `EventRecorder::LoadConfig`: reads `Enable`, `OutputDir`, `MaxEvents`
and `DefaultRadius` from the configuration snapshot (passed here as
arguments) and overwrites `_radius` only when the default radius is
positive. -/
def LoadConfig (enable : Bool) (outputDir : String) (maxEvents : Nat)
    (defaultRadius : ℚ) (s : RecState) : RecState :=
  let s := { s with enabled := enable, outputDir := outputDir,
                    maxEvents := maxEvents }
  if defaultRadius > 0 then { s with radius := defaultRadius } else s

/-- `EventRecorder::IsEnabled`. -/
def IsEnabled (s : RecState) : Bool := s.enabled

/-- `EventRecorder::IsActive`. -/
def IsActive (s : RecState) : Bool := s.active

/-- `EventRecorder::EscapeJson` on a single character: `"`, `\`, newline,
carriage return and tab are replaced by their two-character escapes, any
other character is copied unchanged. -/
def escapeChar (c : Char) : List Char :=
  if c = '"' then ['\\', '"']
  else if c = '\\' then ['\\', '\\']
  else if c = '\n' then ['\\', 'n']
  else if c = '\r' then ['\\', 'r']
  else if c = '\t' then ['\\', 't']
  else [c]

/-- The loop body of `EventRecorder::EscapeJson` over the characters of
the input. -/
def escapeList : List Char → List Char
  | [] => []
  | c :: cs => escapeChar c ++ escapeList cs

/-- `EventRecorder::EscapeJson`. -/
def EscapeJson (input : String) : String := ⟨escapeList input.data⟩

/-- `EventRecorder::FormatUnit`: null formats to the literal `null`;
creatures and generic units carry `entry`, players do not; the name is
escaped, the guid string is interpolated as is. -/
def FormatUnit (ou : Option GameUnit) : String :=
  match ou with
  | none => "null"
  | some u =>
    let name := EscapeJson u.name
    match u.kind with
    | .creature =>
        "\x7b\"type\":\"creature\",\"entry\":" ++ toString u.entry ++
          ",\"name\":\"" ++ name ++ "\",\"guid\":\"" ++ u.guid ++ "\"\x7d"
    | .player =>
        "\x7b\"type\":\"player\",\"name\":\"" ++ name ++
          "\",\"guid\":\"" ++ u.guid ++ "\"\x7d"
    | .generic =>
        "\x7b\"type\":\"unit\",\"entry\":" ++ toString u.entry ++
          ",\"name\":\"" ++ name ++ "\",\"guid\":\"" ++ u.guid ++ "\"\x7d"

/-- `EventRecorder::PassesFilters`: null rejects; then the map filter
(`_mapFilter != 0` and a differing map reject); then, when `_radius > 0`
and the entity is on the anchor's map, reject when the squared distance
from the anchor exceeds `_radius²`. -/
def PassesFilters (s : RecState) (ou : Option GameUnit) : Bool :=
  match ou with
  | none => false
  | some u =>
    if s.mapFilter ≠ 0 ∧ u.mapId ≠ s.mapFilter then false
    else if s.radius > 0 ∧ u.mapId = s.recorderMapId then
      if (u.posX - s.recorderX) * (u.posX - s.recorderX) +
           (u.posY - s.recorderY) * (u.posY - s.recorderY) +
           (u.posZ - s.recorderZ) * (u.posZ - s.recorderZ) >
           s.radius * s.radius then false
      else true
    else true

/-- `EventRecorder::WriteEvent`: no-op when the file is not open; when
`_eventCount >= _maxEvents`, emit the one-time diagnostic and bump the
counter past the limit exactly when `_eventCount == _maxEvents`,
otherwise do nothing; else append the line (with newline and flush) and
increment `_eventCount`. -/
def WriteEvent (jsonLine : String) (s : RecState) : RecState :=
  if s.outFileOpen = false then s
  else if s.eventCount ≥ s.maxEvents then
    if s.eventCount = s.maxEvents then
      { s with eventCount := (s.eventCount + 1) % U32,
               diagCount := s.diagCount + 1 }
    else s
  else
    { s with outLines := s.outLines ++ [jsonLine],
             eventCount := (s.eventCount + 1) % U32 }

/-- The `record_start` line built by `EventRecorder::StartSession`. -/
def startLine (sessionName : String) (mapFilter : Nat)
    (filename : String) : String :=
  "\x7b\"t\":0.000,\"event\":\"record_start\",\"session\":\"" ++
    sessionName ++ "\",\"map\":" ++ toString mapFilter ++
    ",\"file\":\"" ++ filename ++ "\"\x7d"

/-- `EventRecorder::StartSession`.  Environment inputs: `dirCreateOk`
(`std::filesystem::create_directories` succeeded), `fileOpenOk`
(`_outFile.open` succeeded), `filename` (the timestamped file name),
`cfgDefaultRadius` (the `DefaultRadius` configuration option re-read on
the fallback path), `nowTick` (the steady-clock start instant).  Returns
the C++ `bool` result paired with the successor state. -/
def StartSession (sessionName : String) (player : Option GameUnit)
    (mapFilter : Nat) (radius : ℚ) (dirCreateOk fileOpenOk : Bool)
    (filename : String) (cfgDefaultRadius : ℚ) (nowTick : Nat)
    (s : RecState) : Bool × RecState :=
  if s.active then (false, s)
  else if s.enabled = false then (false, s)
  else if dirCreateOk = false then (false, s)
  else if fileOpenOk = false then (false, s)
  else
    let s := { s with outFileOpen := true, outFileName := filename,
                      outLines := [] }
    let s := { s with sessionName := sessionName, eventCount := 0,
                      mapFilter := mapFilter }
    let s :=
      match player with
      | some p =>
          let s := { s with recorderX := p.posX, recorderY := p.posY,
                            recorderZ := p.posZ, recorderMapId := p.mapId,
                            instanceFilter := p.instanceId }
          if mapFilter = 0 then { s with mapFilter := p.mapId } else s
      | none => s
    let s :=
      if radius > 0 then { s with radius := radius }
      else if s.radius ≤ 0 then { s with radius := cfgDefaultRadius }
      else s
    let s := { s with sessionStart := nowTick, active := true }
    (true, WriteEvent (startLine s.sessionName s.mapFilter filename) s)

/-- The `record_stop` line built by `EventRecorder::StopSession`;
`duration` is the formatted `GetSessionTime()` value. -/
def stopLine (duration sessionName : String) (eventCount : Nat) : String :=
  "\x7b\"t\":" ++ duration ++ ",\"event\":\"record_stop\",\"session\":\"" ++
    sessionName ++ "\",\"duration\":" ++ duration ++
    ",\"events_captured\":" ++ toString eventCount ++ "\x7d"

/-- `EventRecorder::StopSession`: fails when not active; otherwise writes
the `record_stop` line through `WriteEvent`, closes the file, clears
`_active`, and resets the filter and anchor fields to zero. -/
def StopSession (duration : String) (s : RecState) : Bool × RecState :=
  if s.active = false then (false, s)
  else
    let s := WriteEvent (stopLine duration s.sessionName s.eventCount) s
    (true,
      { s with outFileOpen := false, active := false, mapFilter := 0,
               instanceFilter := 0, radius := 0, recorderX := 0,
               recorderY := 0, recorderZ := 0, recorderMapId := 0 })

/-- The `enter_combat` line built by `EventRecorder::RecordEnterCombat`. -/
def enterCombatLine (t : String) (unit victim : Option GameUnit) : String :=
  "\x7b\"t\":" ++ t ++ ",\"event\":\"enter_combat\",\"source\":" ++
    FormatUnit unit ++ ",\"target\":" ++ FormatUnit victim ++ "\x7d"

/-- `EventRecorder::RecordEnterCombat`; `t` is the formatted
`GetSessionTime()` value. -/
def RecordEnterCombat (t : String) (unit victim : Option GameUnit)
    (s : RecState) : RecState :=
  if PassesFilters s unit = false then s
  else WriteEvent (enterCombatLine t unit victim) s

/-- The `leave_combat` line built by `EventRecorder::RecordLeaveCombat`. -/
def leaveCombatLine (t : String) (creature : Option GameUnit) : String :=
  "\x7b\"t\":" ++ t ++ ",\"event\":\"leave_combat\",\"source\":" ++
    FormatUnit creature ++ "\x7d"

/-- `EventRecorder::RecordLeaveCombat`. -/
def RecordLeaveCombat (t : String) (creature : Option GameUnit)
    (s : RecState) : RecState :=
  if PassesFilters s creature = false then s
  else WriteEvent (leaveCombatLine t creature) s

/-- The `evade` line built by `EventRecorder::RecordEvade`. -/
def evadeLine (t : String) (unit : Option GameUnit)
    (evadeReason : Nat) : String :=
  "\x7b\"t\":" ++ t ++ ",\"event\":\"evade\",\"source\":" ++
    FormatUnit unit ++ ",\"reason\":" ++ toString evadeReason ++ "\x7d"

/-- `EventRecorder::RecordEvade`. -/
def RecordEvade (t : String) (unit : Option GameUnit) (evadeReason : Nat)
    (s : RecState) : RecState :=
  if PassesFilters s unit = false then s
  else WriteEvent (evadeLine t unit evadeReason) s

/-- The `death` line built by `EventRecorder::RecordUnitDeath`. -/
def deathLine (t : String) (unit killer : Option GameUnit) : String :=
  "\x7b\"t\":" ++ t ++ ",\"event\":\"death\",\"source\":" ++
    FormatUnit unit ++ ",\"killer\":" ++ FormatUnit killer ++ "\x7d"

/-- `EventRecorder::RecordUnitDeath`: admits when the victim or the
killer passes the filters. -/
def RecordUnitDeath (t : String) (unit killer : Option GameUnit)
    (s : RecState) : RecState :=
  if PassesFilters s unit = false ∧ PassesFilters s killer = false then s
  else WriteEvent (deathLine t unit killer) s

/-- The `damage` line built by `EventRecorder::RecordDamage`. -/
def damageLine (t : String) (attacker victim : Option GameUnit)
    (damage : Nat) : String :=
  "\x7b\"t\":" ++ t ++ ",\"event\":\"damage\",\"source\":" ++
    FormatUnit attacker ++ ",\"target\":" ++ FormatUnit victim ++
    ",\"amount\":" ++ toString damage ++ "\x7d"

/-- `EventRecorder::RecordDamage`: admits when the attacker or the victim
passes the filters. -/
def RecordDamage (t : String) (attacker victim : Option GameUnit)
    (damage : Nat) (s : RecState) : RecState :=
  if PassesFilters s attacker = false ∧ PassesFilters s victim = false then s
  else WriteEvent (damageLine t attacker victim damage) s

/-- The `heal` line built by `EventRecorder::RecordHeal`. -/
def healLine (t : String) (healer target : Option GameUnit)
    (gain : Nat) : String :=
  "\x7b\"t\":" ++ t ++ ",\"event\":\"heal\",\"source\":" ++
    FormatUnit healer ++ ",\"target\":" ++ FormatUnit target ++
    ",\"amount\":" ++ toString gain ++ "\x7d"

/-- `EventRecorder::RecordHeal`. -/
def RecordHeal (t : String) (healer target : Option GameUnit) (gain : Nat)
    (s : RecState) : RecState :=
  if PassesFilters s healer = false ∧ PassesFilters s target = false then s
  else WriteEvent (healLine t healer target gain) s

/-- `EventRecorder::RecordAuraApply`. -/
def RecordAuraApply (t : String) (unit : Option GameUnit)
    (aura : Option AuraRec) (s : RecState) : RecState :=
  if PassesFilters s unit = false then s
  else
    match aura with
    | none => s
    | some a =>
      let spellName :=
        match a.spellInfo with
        | some si =>
            match si.spellName with
            | some n => EscapeJson n
            | none => "Unknown"
        | none => "Unknown"
      let spellId := match a.spellInfo with | some si => si.id | none => 0
      WriteEvent ("\x7b\"t\":" ++ t ++ ",\"event\":\"aura_apply\",\"target\":" ++
        FormatUnit unit ++ ",\"spell_id\":" ++ toString spellId ++
        ",\"spell_name\":\"" ++ spellName ++ "\"\x7d") s

/-- `EventRecorder::RecordAuraRemove`. -/
def RecordAuraRemove (t : String) (unit : Option GameUnit)
    (aurApp : Option AuraAppRec) (removeMode : Nat) (s : RecState) :
    RecState :=
  if PassesFilters s unit = false then s
  else
    match aurApp with
    | none => s
    | some app =>
      match app.base with
      | none => s
      | some a =>
        let spellName :=
          match a.spellInfo with
          | some si =>
              match si.spellName with
              | some n => EscapeJson n
              | none => "Unknown"
          | none => "Unknown"
        let spellId := match a.spellInfo with | some si => si.id | none => 0
        WriteEvent ("\x7b\"t\":" ++ t ++ ",\"event\":\"aura_remove\",\"target\":" ++
          FormatUnit unit ++ ",\"spell_id\":" ++ toString spellId ++
          ",\"spell_name\":\"" ++ spellName ++ "\",\"remove_mode\":" ++
          toString removeMode ++ "\x7d") s

/-- `EventRecorder::RecordSpellCast`. -/
def RecordSpellCast (t : String) (player : Option GameUnit)
    (spellInfo : Option SpellInfoRec) (s : RecState) : RecState :=
  if PassesFilters s player = false then s
  else
    match spellInfo with
    | none => s
    | some si =>
      let spellName :=
        match si.spellName with
        | some n => EscapeJson n
        | none => "Unknown"
      WriteEvent ("\x7b\"t\":" ++ t ++ ",\"event\":\"spell_cast\",\"source\":" ++
        FormatUnit player ++ ",\"spell_id\":" ++ toString si.id ++
        ",\"spell_name\":\"" ++ spellName ++ "\"\x7d") s

/-- One call to any of the nine `Record*` entry points, with its
environment inputs. -/
inductive RecordCall where
  | enterCombat (t : String) (unit victim : Option GameUnit)
  | leaveCombat (t : String) (creature : Option GameUnit)
  | evade (t : String) (unit : Option GameUnit) (reason : Nat)
  | unitDeath (t : String) (unit killer : Option GameUnit)
  | damage (t : String) (attacker victim : Option GameUnit) (amount : Nat)
  | heal (t : String) (healer target : Option GameUnit) (gain : Nat)
  | auraApply (t : String) (unit : Option GameUnit) (aura : Option AuraRec)
  | auraRemove (t : String) (unit : Option GameUnit)
      (aurApp : Option AuraAppRec) (removeMode : Nat)
  | spellCast (t : String) (player : Option GameUnit)
      (spellInfo : Option SpellInfoRec)

/-- Dispatch a `RecordCall` to the corresponding transition. -/
def applyCall (c : RecordCall) (s : RecState) : RecState :=
  match c with
  | .enterCombat t u v => RecordEnterCombat t u v s
  | .leaveCombat t c => RecordLeaveCombat t c s
  | .evade t u r => RecordEvade t u r s
  | .unitDeath t u k => RecordUnitDeath t u k s
  | .damage t a v amt => RecordDamage t a v amt s
  | .heal t h tg g => RecordHeal t h tg g s
  | .auraApply t u a => RecordAuraApply t u a s
  | .auraRemove t u app m => RecordAuraRemove t u app m s
  | .spellCast t p si => RecordSpellCast t p si s

/-- A sequence of `Record*` calls, applied in order. -/
def applyCalls (cs : List RecordCall) (s : RecState) : RecState :=
  match cs with
  | [] => s
  | c :: rest => applyCalls rest (applyCall c s)

/-- Iterate `WriteEvent` with the line `ℓ`: `writeN ℓ k s` is the state
after `k` admitted events reach the writer. -/
def writeN (ℓ : String) : Nat → RecState → RecState
  | 0, s => s
  | k + 1, s => WriteEvent ℓ (writeN ℓ k s)

/-- A character may stand unescaped in the body of a JSON string iff it
is neither the quote, nor the backslash, nor a control character. -/
def jsonPlain (c : Char) : Bool :=
  decide (¬(c = '"' ∨ c = '\\' ∨ c.toNat < 32))

/-- The single-character escapes of the JSON string grammar: the
character allowed after a backslash, and the character it denotes. -/
def escDecode (c : Char) : Option Char :=
  if c = '"' then some '"'
  else if c = '\\' then some '\\'
  else if c = '/' then some '/'
  else if c = 'b' then some (Char.ofNat 8)
  else if c = 'f' then some (Char.ofNat 12)
  else if c = 'n' then some '\n'
  else if c = 'r' then some '\r'
  else if c = 't' then some '\t'
  else none

/-- Decoder for the body of a JSON string (the part between the quotes):
returns the decoded characters, or `none` when the body is not valid
JSON string content.  It accepts the single-character escapes of the
JSON grammar (the `\uXXXX` form, which the recorder never emits, is not
modelled). -/
def unescape : List Char → Option (List Char)
  | [] => some []
  | c :: rest =>
    if c = '\\' then
      match rest with
      | [] => none
      | d :: rest' => (escDecode d).bind fun e => (unescape rest').map (e :: ·)
    else if jsonPlain c then (unescape rest).map (c :: ·)
    else none

/-- The invariant of claim C10: the session is active exactly when the
output handle is open. -/
def HandleInv (s : RecState) : Prop := s.active = s.outFileOpen

/-! ### Concrete scenario states

The `boss` scenario follows §8 of the spec: a session named `boss1` is
started by an operator, one damage event is admitted and one is
rejected, then the session is stopped.  (Rejection here is by the map
filter — the rejected entities stand on a different map — which keeps
every field a literal so the states evaluate by `decide`; the admission
accounting is identical for radius-based rejection.)  The `cap` scenario
runs a session whose `MaxEvents` is 2.  The `radiusSession` state is a
session with radius 50 anchored at the origin of map 5. -/

/-- The operator starting the `boss1` session, standing on map 5. -/
def bossPlayer : GameUnit := ⟨.player, 0, "Rec", "Player-1", 5, 0, 0, 0, 0⟩

/-- A creature on map 5: it passes the `boss1` session's filters. -/
def bossAdmitted : GameUnit :=
  ⟨.creature, 7, "Boss", "Creature-7", 5, 0, 0, 0, 0⟩

/-- A player on map 6: the `boss1` session's map filter rejects it. -/
def bossRejected : GameUnit := ⟨.player, 0, "Bob", "Player-2", 6, 0, 0, 0, 0⟩

/-- Recorder configuration: enabled, default `MaxEvents`, no default
radius. -/
def bossCfg : RecState := LoadConfig true "recordings" 100000 0 initState

/-- The `boss1` session, just started (the `record_start` bracket line is
in the file and `eventCount = 1`). -/
def bossStart : Bool × RecState :=
  StartSession "boss1" (some bossPlayer) 0 0 true true
    "recordings/boss1.jsonl" 0 0 bossCfg

/-- After one admitted damage event (attacker passes, victim does not). -/
def bossAfter1 : RecState :=
  RecordDamage "0.050" (some bossAdmitted) (some bossRejected) 500
    bossStart.2

/-- After a further damage event both of whose entities are rejected. -/
def bossAfter2 : RecState :=
  RecordDamage "0.060" (some bossRejected) (some bossRejected) 10 bossAfter1

/-- The stopped `boss1` session. -/
def bossFinal : Bool × RecState := StopSession "1.000" bossAfter2

/-- Mid-session configuration reload that turns `Enable` off: the
`OnAfterConfigLoad` hook calls `LoadConfig` also on reload, and
`LoadConfig` does not touch `_active` or the open file. -/
def disabledMid : RecState :=
  LoadConfig false "recordings" 100000 0 bossStart.2

/-- A creature passing the wildcard filters of the `cap` session. -/
def capUnit : GameUnit := ⟨.creature, 3, "Dummy", "Creature-3", 0, 0, 0, 0, 0⟩

/-- Recorder configuration with `MaxEvents = 2`. -/
def capCfg : RecState := LoadConfig true "recordings" 2 0 initState

/-- A session started under `capCfg`: the `record_start` bracket line has
already consumed one of the two slots (`eventCount = 1`). -/
def capStart : Bool × RecState :=
  StartSession "cap" none 0 0 true true "recordings/cap.jsonl" 0 0 capCfg

/-- After the first admitted damage event (`eventCount = 2`). -/
def capAfter1 : RecState :=
  RecordDamage "0.100" (some capUnit) none 5 capStart.2

/-- After the second admitted damage event: the writer is at the cap, so
this event produced the one-time diagnostic and no line. -/
def capAfter2 : RecState :=
  RecordDamage "0.200" (some capUnit) none 6 capAfter1

/-- An active session with radius 50 anchored at the origin of map 5,
whose map filter admits map 5. -/
def radiusSession : RecState :=
  { initState with enabled := true, active := true, outFileOpen := true,
                   mapFilter := 5, recorderMapId := 5, radius := 50 }

/-- An entity on the anchor's map at distance exactly 50 (the boundary). -/
def unitOnBoundary : GameUnit := ⟨.creature, 1, "A", "C-1", 5, 0, 50, 0, 0⟩

/-- An entity on the anchor's map at distance 51 (beyond the radius). -/
def unitBeyond : GameUnit := ⟨.creature, 2, "B", "C-2", 5, 0, 51, 0, 0⟩

/-- An entity on a different map, far beyond the radius. -/
def unitOtherMap : GameUnit :=
  ⟨.creature, 3, "C", "C-3", 6, 0, 1000000, 0, 0⟩

/-! ### Helper lemmas about `WriteEvent` -/

theorem writeEvent_closed (ℓ : String) (s : RecState)
    (h : s.outFileOpen = false) : WriteEvent ℓ s = s := by
  simp [WriteEvent, h]

theorem writeEvent_under_cap (ℓ : String) (s : RecState)
    (h1 : s.outFileOpen = true) (h2 : s.eventCount < s.maxEvents) :
    WriteEvent ℓ s =
      { s with outLines := s.outLines ++ [ℓ],
               eventCount := (s.eventCount + 1) % U32 } := by
  unfold WriteEvent
  rw [if_neg (by simp [h1]), if_neg (by omega)]

theorem writeEvent_at_cap (ℓ : String) (s : RecState)
    (h1 : s.outFileOpen = true) (h2 : s.eventCount = s.maxEvents) :
    WriteEvent ℓ s =
      { s with eventCount := (s.eventCount + 1) % U32,
               diagCount := s.diagCount + 1 } := by
  unfold WriteEvent
  rw [if_neg (by simp [h1]), if_pos (by omega), if_pos h2]

theorem writeEvent_past_cap (ℓ : String) (s : RecState)
    (h1 : s.maxEvents < s.eventCount) : WriteEvent ℓ s = s := by
  unfold WriteEvent
  rcases h : s.outFileOpen with _ | _
  · rw [if_pos (by simp [h])]
  · rw [if_neg (by simp [h]), if_pos (by omega), if_neg (by omega)]

theorem writeEvent_active (ℓ : String) (s : RecState) :
    (WriteEvent ℓ s).active = s.active := by
  unfold WriteEvent
  repeat' split
  all_goals rfl

theorem writeEvent_outFileOpen (ℓ : String) (s : RecState) :
    (WriteEvent ℓ s).outFileOpen = s.outFileOpen := by
  unfold WriteEvent
  repeat' split
  all_goals rfl

theorem writeEvent_maxEvents (ℓ : String) (s : RecState) :
    (WriteEvent ℓ s).maxEvents = s.maxEvents := by
  unfold WriteEvent
  repeat' split
  all_goals rfl

theorem writeEvent_diagCount_of_ne (ℓ : String) (s : RecState)
    (h : s.eventCount ≠ s.maxEvents) :
    (WriteEvent ℓ s).diagCount = s.diagCount := by
  unfold WriteEvent
  repeat' split
  all_goals rfl

/-- Every `Record*` entry point either leaves the state unchanged or
hands exactly one line to `WriteEvent`. -/
theorem applyCall_cases (c : RecordCall) (s : RecState) :
    applyCall c s = s ∨ ∃ ℓ, applyCall c s = WriteEvent ℓ s := by
  cases c <;>
    simp only [applyCall, RecordEnterCombat, RecordLeaveCombat,
      RecordEvade, RecordUnitDeath, RecordDamage, RecordHeal,
      RecordAuraApply, RecordAuraRemove, RecordSpellCast] <;>
    repeat' split
  all_goals first | exact Or.inl rfl | exact Or.inr ⟨_, rfl⟩

/-- While the output handle is closed, every `Record*` entry point is the
identity on the state. -/
theorem applyCall_closed (c : RecordCall) (s : RecState)
    (h : s.outFileOpen = false) : applyCall c s = s := by
  rcases applyCall_cases c s with heq | ⟨ℓ, heq⟩
  · exact heq
  · rw [heq, writeEvent_closed ℓ s h]

/-! ### Helper lemmas about `escapeChar` and `unescape` -/

/-- Decoding the escape of one admissible character prepends that
character: the step case of the round-trip argument. -/
theorem unescape_escapeChar (c : Char) (rest : List Char)
    (h : 32 ≤ c.toNat ∨ c = '\n' ∨ c = '\r' ∨ c = '\t') :
    unescape (escapeChar c ++ rest) = (unescape rest).map (c :: ·) := by
  by_cases h1 : c = '"'
  · subst h1; simp [escapeChar, unescape, escDecode]
  · by_cases h2 : c = '\\'
    · subst h2; simp [escapeChar, unescape, escDecode]
    · by_cases h3 : c = '\n'
      · subst h3; simp [escapeChar, unescape, escDecode]
      · by_cases h4 : c = '\r'
        · subst h4; simp [escapeChar, unescape, escDecode]
        · by_cases h5 : c = '\t'
          · subst h5; simp [escapeChar, unescape, escDecode]
          · have hplain : jsonPlain c = true := by
              have h32 : 32 ≤ c.toNat := by
                rcases h with h | h | h | h
                · exact h
                · exact absurd h h3
                · exact absurd h h4
                · exact absurd h h5
              simp [jsonPlain, h1, h2]
              omega
            have hesc : escapeChar c = [c] := by
              simp [escapeChar, h1, h2, h3, h4, h5]
            rw [hesc, List.singleton_append, unescape.eq_def]
            simp [h2, hplain]

/-- Escaping then decoding an admissible character list is the identity:
the induction behind the round-trip claim. -/
theorem unescape_escapeList (l : List Char)
    (h : ∀ c ∈ l, 32 ≤ c.toNat ∨ c = '\n' ∨ c = '\r' ∨ c = '\t') :
    unescape (escapeList l) = some l := by
  induction l with
  | nil => rfl
  | cons c cs ih =>
    rw [escapeList, unescape_escapeChar c _ (h c (by simp)),
        ih (fun d hd => h d (by simp [hd]))]
    rfl

/-! ### The claims -/

/-- C4: for every session state with radius `R > 0` anchored at
`(recorderX, recorderY, recorderZ)` on map `recorderMapId`, whose map
filter admits the anchor's map, `PassesFilters` (i) admits an entity on
the anchor's map whose squared distance from the anchor equals `R²`
(distance exactly `R` — the boundary is inclusive), (ii) rejects an
entity on the anchor's map whose squared distance exceeds `R²` (distance
strictly greater than `R`), and (iii) never subjects an entity on a
different map to the radius test: its admission is decided by the map
filter alone. -/
theorem radius_filter_boundary (s : RecState) (hr : 0 < s.radius)
    (hmf : s.mapFilter = 0 ∨ s.mapFilter = s.recorderMapId) :
    (∀ u : GameUnit, u.mapId = s.recorderMapId →
      (u.posX - s.recorderX) * (u.posX - s.recorderX) +
        (u.posY - s.recorderY) * (u.posY - s.recorderY) +
        (u.posZ - s.recorderZ) * (u.posZ - s.recorderZ) =
          s.radius * s.radius →
      PassesFilters s (some u) = true) ∧
    (∀ u : GameUnit, u.mapId = s.recorderMapId →
      s.radius * s.radius <
        (u.posX - s.recorderX) * (u.posX - s.recorderX) +
        (u.posY - s.recorderY) * (u.posY - s.recorderY) +
        (u.posZ - s.recorderZ) * (u.posZ - s.recorderZ) →
      PassesFilters s (some u) = false) ∧
    (∀ u : GameUnit, u.mapId ≠ s.recorderMapId →
      (PassesFilters s (some u) = true ↔
        (s.mapFilter = 0 ∨ u.mapId = s.mapFilter))) := by
  have hmapok : ∀ u : GameUnit, u.mapId = s.recorderMapId →
      ¬(s.mapFilter ≠ 0 ∧ u.mapId ≠ s.mapFilter) := by
    intro u hmap hc
    rcases hmf with h | h
    · exact hc.1 h
    · exact hc.2 (by rw [hmap, ← h])
  refine ⟨?_, ?_, ?_⟩
  · intro u hmap hdist
    simp only [PassesFilters]
    rw [if_neg (hmapok u hmap), if_pos ⟨hr, hmap⟩,
        if_neg (by rw [hdist]; exact lt_irrefl _)]
  · intro u hmap hdist
    simp only [PassesFilters]
    rw [if_neg (hmapok u hmap), if_pos ⟨hr, hmap⟩, if_pos hdist]
  · intro u hmap
    simp only [PassesFilters]
    by_cases hm : s.mapFilter ≠ 0 ∧ u.mapId ≠ s.mapFilter
    · rw [if_pos hm]
      simp [hm.1, hm.2]
    · rw [if_neg hm, if_neg (fun hc => hmap hc.2)]
      push_neg at hm
      simp only [true_iff]
      by_cases h0 : s.mapFilter = 0
      · exact Or.inl h0
      · exact Or.inr (hm h0)

/-- Witness for C4 at the session `radiusSession` (radius 50, anchor at
the origin of map 5): the boundary entity is admitted, the entity at
distance 51 is rejected, and the off-map entity is decided by the map
filter alone. -/
theorem radius_filter_boundary_witness :
    PassesFilters radiusSession (some unitOnBoundary) = true ∧
    PassesFilters radiusSession (some unitBeyond) = false ∧
    (PassesFilters radiusSession (some unitOtherMap) = true ↔
      (radiusSession.mapFilter = 0 ∨
        unitOtherMap.mapId = radiusSession.mapFilter)) := by
  have h := radius_filter_boundary radiusSession (by decide) (Or.inr rfl)
  exact ⟨h.1 unitOnBoundary rfl
          (by norm_num [radiusSession, initState, unitOnBoundary]),
        h.2.1 unitBeyond rfl
          (by norm_num [radiusSession, initState, unitBeyond]),
        h.2.2 unitOtherMap (by decide)⟩

/-- C5: starting a session while one is active returns failure and
leaves the entire recorder state — output file, counters, name, start
instant and all filter fields — exactly unchanged, whatever the
arguments and whatever the environment does. -/
theorem startSession_fails_while_active (n : String) (p : Option GameUnit)
    (mf : Nat) (r : ℚ) (dok fok : Bool) (fn : String) (dr : ℚ) (tick : Nat)
    (s : RecState) (h : s.active = true) :
    StartSession n p mf r dok fok fn dr tick s = (false, s) := by
  simp [StartSession, h]

/-- Witness for C5: a second `StartSession` against the running `boss1`
session fails and changes nothing. -/
theorem startSession_fails_while_active_witness :
    StartSession "other" none 0 0 true true "recordings/other.jsonl" 0 0
      bossStart.2 = (false, bossStart.2) :=
  startSession_fails_while_active "other" none 0 0 true true
    "recordings/other.jsonl" 0 0 bossStart.2 (by decide)

/-- C9: any sequence of `Record*` calls made while no session is active
(and hence, by the handle invariant, the output file is closed) leaves
the recorder state exactly unchanged: no file is written and no counter
changes. -/
theorem record_calls_inactive_noop (cs : List RecordCall) (s : RecState)
    (hact : s.active = false) (hopen : s.outFileOpen = false) :
    applyCalls cs s = s := by
  induction cs with
  | nil => rfl
  | cons c rest ih =>
    unfold applyCalls
    rw [applyCall_closed c s hopen]
    exact ih

/-- Witness for C9: three recording calls against the initial (inactive)
state change nothing. -/
theorem record_calls_inactive_noop_witness :
    applyCalls
      [.damage "0.100" (some bossAdmitted) (some bossRejected) 5,
       .enterCombat "0.200" (some bossAdmitted) none,
       .spellCast "0.300" (some bossPlayer) (some ⟨100, some "Fireball"⟩)]
      initState = initState :=
  record_calls_inactive_noop _ initState rfl rfl

/-- C10: the invariant "the session is active iff the output handle is
open" holds in the initial state and is preserved by `LoadConfig`, by
`StartSession` (on the success path and on every failure path), by
`StopSession` (on both paths) and by every `Record*` call; consequently,
while inactive no `Record*` call ever writes — a write is only ever
attempted against an open handle. -/
theorem active_iff_handle_open :
    HandleInv initState ∧
    (∀ e od me dr s, HandleInv s → HandleInv (LoadConfig e od me dr s)) ∧
    (∀ n p mf r dok fok fn dr tick s, HandleInv s →
      HandleInv (StartSession n p mf r dok fok fn dr tick s).2) ∧
    (∀ d s, HandleInv s → HandleInv (StopSession d s).2) ∧
    (∀ c s, HandleInv s → HandleInv (applyCall c s)) ∧
    (∀ c s, HandleInv s → s.active = false → applyCall c s = s) := by
  refine ⟨rfl, ?_, ?_, ?_, ?_, ?_⟩
  · intro e od me dr s h
    unfold LoadConfig HandleInv
    split
    · exact h
    · exact h
  · intro n p mf r dok fok fn dr tick s h
    simp only [StartSession]
    repeat' split
    all_goals
      first
        | exact h
        | simp [HandleInv, writeEvent_active, writeEvent_outFileOpen]
  · intro d s h
    unfold StopSession
    split
    · exact h
    · rfl
  · intro c s h
    rcases applyCall_cases c s with heq | ⟨ℓ, heq⟩
    · rw [heq]; exact h
    · rw [heq]
      unfold HandleInv
      rw [writeEvent_active, writeEvent_outFileOpen]
      exact h
  · intro c s h hA
    exact applyCall_closed c s (by rw [← h, hA])

/-- Witness for C10: the invariant after concretely starting and
stopping the `boss1` session, and a concrete no-write while inactive. -/
theorem active_iff_handle_open_witness :
    HandleInv bossStart.2 ∧ HandleInv bossFinal.2 ∧
    applyCall (.heal "0.100" (some bossAdmitted) none 3) initState =
      initState := by
  refine ⟨?_, ?_, ?_⟩
  · exact active_iff_handle_open.2.2.1 "boss1" (some bossPlayer) 0 0 true
      true "recordings/boss1.jsonl" 0 0 bossCfg
      (by unfold HandleInv; decide)
  · exact active_iff_handle_open.2.2.2.1 "1.000" bossAfter2
      (by unfold HandleInv; decide)
  · exact active_iff_handle_open.2.2.2.2.2 _ initState
      (by unfold HandleInv; decide) rfl

/-- C6 fails on the code: only `StartSession` consults `_enabled`.  After
a mid-session configuration reload turns `Enable` off, the recorder is
disabled yet the session stays active; `StopSession` then returns
success (the claim demands failure), and an admitted `RecordDamage`
still appends a line and still increments `eventCount` (the claim
demands neither). -/
theorem disabled_ops_counterexample :
    IsEnabled disabledMid = false ∧
    IsActive disabledMid = true ∧
    (StopSession "1.000" disabledMid).1 = true ∧
    (RecordDamage "0.500" (some bossAdmitted) none 5
      disabledMid).outLines.length = disabledMid.outLines.length + 1 ∧
    (RecordDamage "0.500" (some bossAdmitted) none 5
      disabledMid).eventCount = disabledMid.eventCount + 1 := by
  decide

/-- C6 (amended): when `IsEnabled()` is false, `StartSession` always
returns failure with no state change; when additionally no session is
active — the only disabled states reachable without a mid-session
reload — `StopSession` returns failure with no state change and every
`Record*` call is a no-op.  The enabled flag does not gate `StopSession`
or `Record*` on a session that is already active. -/
theorem disabled_gating (s : RecState) (hdis : s.enabled = false) :
    (∀ n p mf r dok fok fn dr tick,
      StartSession n p mf r dok fok fn dr tick s = (false, s)) ∧
    (s.active = false → ∀ d, StopSession d s = (false, s)) ∧
    (s.active = false → s.outFileOpen = false →
      ∀ c, applyCall c s = s) := by
  refine ⟨?_, ?_, ?_⟩
  · intro n p mf r dok fok fn dr tick
    cases hA : s.active <;> simp [StartSession, hA, hdis]
  · intro hA d
    simp [StopSession, hA]
  · intro _ hO c
    exact applyCall_closed c s hO

/-- Witness for C6 (amended) at the initial state, which is disabled and
inactive. -/
theorem disabled_gating_witness :
    StartSession "s" none 0 0 true true "recordings/s.jsonl" 0 0
      initState = (false, initState) ∧
    StopSession "1.000" initState = (false, initState) ∧
    applyCall (.damage "0.100" (some bossAdmitted) none 5) initState =
      initState := by
  have h := disabled_gating initState rfl
  exact ⟨h.1 "s" none 0 0 true true "recordings/s.jsonl" 0 0,
         h.2.1 rfl "1.000", h.2.2 rfl rfl _⟩

/-- C8: with the output open and the cap not reached, `RecordDamage`
appends a line iff the attacker or the victim passes the session filter,
and `RecordUnitDeath` iff the victim or the killer passes; a null entity
never passes the filter; a null entity serializes to the explicit
absent marker `null`; and when the event is admitted via the other
entity, the written record is the full line in which the null entity
appears through `FormatUnit none`. -/
theorem damage_death_admission (s : RecState) (hopen : s.outFileOpen = true)
    (hcap : s.eventCount < s.maxEvents) :
    (∀ t a v amt, (RecordDamage t a v amt s).outLines.length =
      s.outLines.length +
        (if PassesFilters s a = true ∨ PassesFilters s v = true
         then 1 else 0)) ∧
    (∀ t u k, (RecordUnitDeath t u k s).outLines.length =
      s.outLines.length +
        (if PassesFilters s u = true ∨ PassesFilters s k = true
         then 1 else 0)) ∧
    PassesFilters s none = false ∧
    FormatUnit none = "null" ∧
    (∀ t a amt, PassesFilters s a = true →
      (RecordDamage t a none amt s).outLines =
        s.outLines ++ [damageLine t a none amt]) ∧
    (∀ t u k, PassesFilters s k = true →
      (RecordUnitDeath t u k s).outLines =
        s.outLines ++ [deathLine t u k]) := by
  refine ⟨?_, ?_, rfl, rfl, ?_, ?_⟩
  · intro t a v amt
    cases hA : PassesFilters s a <;> cases hV : PassesFilters s v <;>
      simp [RecordDamage, hA, hV, writeEvent_under_cap _ s hopen hcap]
  · intro t u k
    cases hU : PassesFilters s u <;> cases hK : PassesFilters s k <;>
      simp [RecordUnitDeath, hU, hK, writeEvent_under_cap _ s hopen hcap]
  · intro t a amt hPa
    rw [RecordDamage, if_neg (fun hc => by simp [hPa] at hc),
        writeEvent_under_cap _ s hopen hcap]
  · intro t u k hPk
    rw [RecordUnitDeath, if_neg (fun hc => by simp [hPk] at hc),
        writeEvent_under_cap _ s hopen hcap]

/-- Witness for C8 at the running `boss1` session: the mixed
admitted/rejected damage pair appends one line, the null filter fact,
and a damage record admitted via the attacker with a null victim
appends the full line. -/
theorem damage_death_admission_witness :
    (RecordDamage "0.050" (some bossAdmitted) (some bossRejected) 500
      bossStart.2).outLines.length =
      bossStart.2.outLines.length +
        (if PassesFilters bossStart.2 (some bossAdmitted) = true ∨
            PassesFilters bossStart.2 (some bossRejected) = true
         then 1 else 0) ∧
    PassesFilters bossStart.2 none = false ∧
    (RecordDamage "0.070" (some bossAdmitted) none 9
      bossStart.2).outLines =
      bossStart.2.outLines ++
        [damageLine "0.070" (some bossAdmitted) none 9] := by
  have h := damage_death_admission bossStart.2 (by decide) (by decide)
  exact ⟨h.1 "0.050" (some bossAdmitted) (some bossRejected) 500,
         h.2.2.1, h.2.2.2.2.1 "0.070" (some bossAdmitted) 9 (by decide)⟩

/-- C2 fails on the code: the `record_stop` line goes through the same
capped `WriteEvent`, so a session whose cap has been reached gets no
`record_stop` line.  Concretely, `capAfter2` is an active session with
`eventCount = maxEvents + 1`; `StopSession` returns success but appends
nothing. -/
theorem stopSession_at_cap_counterexample :
    IsActive capAfter2 = true ∧
    capAfter2.eventCount = capAfter2.maxEvents + 1 ∧
    (StopSession "1.000" capAfter2).1 = true ∧
    (StopSession "1.000" capAfter2).2.outLines = capAfter2.outLines := by
  decide

/-- C2 (amended): for every active session `StopSession` returns
success, closes the output handle, marks the session inactive and
resets all filter and anchor fields to neutral; the synthetic
`record_stop` line (carrying the duration and the event count) is
written exactly when `eventCount < maxEvents` on entry — a session
whose cap has been reached gets no stop line; and reaching the cap
never closes the handle or stops the session implicitly (`WriteEvent`
never changes `active` or the handle). -/
theorem stopSession_spec (d : String) (s : RecState)
    (hact : s.active = true) :
    (StopSession d s).1 = true ∧
    (StopSession d s).2.outFileOpen = false ∧
    (StopSession d s).2.active = false ∧
    (StopSession d s).2.mapFilter = 0 ∧
    (StopSession d s).2.instanceFilter = 0 ∧
    (StopSession d s).2.radius = 0 ∧
    (StopSession d s).2.recorderX = 0 ∧
    (StopSession d s).2.recorderY = 0 ∧
    (StopSession d s).2.recorderZ = 0 ∧
    (StopSession d s).2.recorderMapId = 0 ∧
    (s.outFileOpen = true → s.eventCount < s.maxEvents →
      (StopSession d s).2.outLines =
        s.outLines ++ [stopLine d s.sessionName s.eventCount]) ∧
    (∀ ℓ (s' : RecState), (WriteEvent ℓ s').outFileOpen = s'.outFileOpen ∧
      (WriteEvent ℓ s').active = s'.active) := by
  unfold StopSession
  rw [if_neg (by simp [hact])]
  refine ⟨rfl, rfl, rfl, rfl, rfl, rfl, rfl, rfl, rfl, rfl, ?_, ?_⟩
  · intro hopen hcap
    rw [writeEvent_under_cap _ s hopen hcap]
  · intro ℓ s'
    exact ⟨writeEvent_outFileOpen ℓ s', writeEvent_active ℓ s'⟩

/-- Witness for C2 (amended): stopping the running `boss1` session
succeeds, closes, deactivates, and appends the `record_stop` line. -/
theorem stopSession_spec_witness :
    (StopSession "1.000" bossAfter2).1 = true ∧
    (StopSession "1.000" bossAfter2).2.outFileOpen = false ∧
    (StopSession "1.000" bossAfter2).2.active = false ∧
    (StopSession "1.000" bossAfter2).2.outLines =
      bossAfter2.outLines ++
        [stopLine "1.000" bossAfter2.sessionName bossAfter2.eventCount] := by
  obtain ⟨h1, h2, h3, _, _, _, _, _, _, _, h11, -⟩ :=
    stopSession_spec "1.000" bossAfter2 (by decide)
  exact ⟨h1, h2, h3, h11 (by decide) (by decide)⟩

/-- While the counter stays under the cap, `k` admitted events append
`k` lines and advance the counter by `k`. -/
theorem writeN_under_cap (ℓ : String) (k : Nat) (s : RecState)
    (hopen : s.outFileOpen = true) (hk : s.eventCount + k ≤ s.maxEvents)
    (hw : s.maxEvents < U32) :
    writeN ℓ k s =
      { s with outLines := s.outLines ++ List.replicate k ℓ,
               eventCount := s.eventCount + k } := by
  induction k with
  | zero =>
    simp [writeN]
  | succ n ih =>
    rw [writeN, ih (by omega)]
    have h1 : ({ s with outLines := s.outLines ++ List.replicate n ℓ,
                        eventCount := s.eventCount + n } : RecState).outFileOpen
        = true := hopen
    have h2 : ({ s with outLines := s.outLines ++ List.replicate n ℓ,
                        eventCount := s.eventCount + n } : RecState).eventCount
        < ({ s with outLines := s.outLines ++ List.replicate n ℓ,
                    eventCount := s.eventCount + n } : RecState).maxEvents := by
      show s.eventCount + n < s.maxEvents
      omega
    rw [writeEvent_under_cap _ _ h1 h2]
    have hmod : (s.eventCount + n + 1) % U32 = s.eventCount + (n + 1) := by
      rw [Nat.mod_eq_of_lt (by omega)]
      omega
    simp [hmod, List.replicate_succ', List.append_assoc]

/-- C1 fails on the code: the `record_start` bracket line is written
through the same capped `WriteEvent` and consumes one of the `maxEvents`
slots.  Under `maxEvents = 2`, a freshly started session holds one
bracket line and `eventCount = 1`; after exactly two admitted data
events the file holds only one data line beside the bracket (the claim
demands two) and the diagnostic has fired; the conjunction claimed is
therefore false.  (The third conjunct of the claim does hold: a further
admitted event changes nothing.) -/
theorem cap_data_lines_counterexample :
    capStart.2.maxEvents = 2 ∧
    capStart.2.eventCount = 1 ∧
    capStart.2.outLines.length = 1 ∧
    capAfter2.outLines.length = 2 ∧
    capAfter2.diagCount = 1 ∧
    RecordDamage "0.300" (some capUnit) none 7 capAfter2 = capAfter2 := by
  decide

/-- C1 (amended): in a freshly started session (output open,
`eventCount = 1` because the `record_start` bracket consumed one slot),
admitting exactly `maxEvents` further events produces `maxEvents - 1`
data lines and exactly one cap diagnostic, leaving
`eventCount = maxEvents + 1`; any further admitted event is a complete
no-op — no line and no further diagnostic. -/
theorem cap_line_accounting (ℓ : String) (s : RecState)
    (hopen : s.outFileOpen = true) (hcount : s.eventCount = 1)
    (hmax : 1 ≤ s.maxEvents) (hw : s.maxEvents + 1 < U32) :
    (writeN ℓ s.maxEvents s).outLines.length =
      s.outLines.length + (s.maxEvents - 1) ∧
    (writeN ℓ s.maxEvents s).eventCount = s.maxEvents + 1 ∧
    (writeN ℓ s.maxEvents s).diagCount = s.diagCount + 1 ∧
    WriteEvent ℓ (writeN ℓ s.maxEvents s) = writeN ℓ s.maxEvents s := by
  obtain ⟨m, hm⟩ : ∃ m, s.maxEvents = m + 1 := ⟨s.maxEvents - 1, by omega⟩
  have hN : writeN ℓ m s =
      { s with outLines := s.outLines ++ List.replicate m ℓ,
               eventCount := s.eventCount + m } :=
    writeN_under_cap ℓ m s hopen (by omega) (by omega)
  have hstep : writeN ℓ s.maxEvents s = WriteEvent ℓ (writeN ℓ m s) := by
    rw [hm]
    rfl
  have hAt : WriteEvent ℓ (writeN ℓ m s) =
      { writeN ℓ m s with
          eventCount := ((writeN ℓ m s).eventCount + 1) % U32,
          diagCount := (writeN ℓ m s).diagCount + 1 } := by
    refine writeEvent_at_cap ℓ (writeN ℓ m s) ?_ ?_
    · rw [hN]
      exact hopen
    · rw [hN]
      show s.eventCount + m = s.maxEvents
      omega
  have hfinal : writeN ℓ s.maxEvents s =
      { s with outLines := s.outLines ++ List.replicate m ℓ,
               eventCount := (s.eventCount + m + 1) % U32,
               diagCount := s.diagCount + 1 } := by
    rw [hstep, hAt, hN]
  have hmod : (s.eventCount + m + 1) % U32 = s.maxEvents + 1 := by
    rw [Nat.mod_eq_of_lt (by omega)]
    omega
  refine ⟨?_, ?_, ?_, ?_⟩
  · rw [hfinal]
    show (s.outLines ++ List.replicate m ℓ).length =
      s.outLines.length + (s.maxEvents - 1)
    rw [List.length_append, List.length_replicate]
    omega
  · rw [hfinal]
    exact hmod
  · rw [hfinal]
  · refine writeEvent_past_cap ℓ _ ?_
    rw [hfinal]
    show s.maxEvents < (s.eventCount + m + 1) % U32
    rw [hmod]
    omega

/-- Witness for C1 (amended) at the `cap` session (`maxEvents = 2`,
bracket line already written): two admitted events yield one data line,
one diagnostic, a counter of 3, and a third admitted event is a no-op. -/
theorem cap_line_accounting_witness :
    (writeN "x" capStart.2.maxEvents capStart.2).outLines.length =
      capStart.2.outLines.length + (capStart.2.maxEvents - 1) ∧
    (writeN "x" capStart.2.maxEvents capStart.2).eventCount =
      capStart.2.maxEvents + 1 ∧
    (writeN "x" capStart.2.maxEvents capStart.2).diagCount =
      capStart.2.diagCount + 1 ∧
    WriteEvent "x" (writeN "x" capStart.2.maxEvents capStart.2) =
      writeN "x" capStart.2.maxEvents capStart.2 :=
  cap_line_accounting "x" capStart.2 (by decide) (by decide) (by decide)
    (by decide)

/-- C3 fails on the code: `events_captured` is `_eventCount`, which the
`record_start` bracket line also incremented.  In the §8 scenario —
one admitted damage event (one appended line), one rejected damage
event (a strict no-op) — the final `record_stop` line reports
`events_captured` 2, not 1. -/
theorem events_captured_counterexample :
    bossAfter2 = bossAfter1 ∧
    bossAfter1.outLines.length = bossStart.2.outLines.length + 1 ∧
    bossFinal.2.outLines.getLast? = some (stopLine "1.000" "boss1" 2) ∧
    stopLine "1.000" "boss1" 2 ≠ stopLine "1.000" "boss1" 1 := by
  decide

/-- C3 (amended): every admitted event reaching the writer under the cap
increments `eventCount` exactly once (and appends exactly one line);
an event reaching the writer at or past the cap appends nothing; and
`events_captured` reports the number of admitted data events plus one
for the `record_start` bracket line — 2 in the one-admitted /
one-rejected scenario. -/
theorem events_captured_accounting :
    (∀ ℓ (s : RecState), s.outFileOpen = true →
      s.eventCount < s.maxEvents →
      (WriteEvent ℓ s).eventCount = (s.eventCount + 1) % U32 ∧
      (WriteEvent ℓ s).outLines.length = s.outLines.length + 1) ∧
    (∀ ℓ (s : RecState), s.maxEvents ≤ s.eventCount →
      (WriteEvent ℓ s).outLines.length = s.outLines.length) ∧
    bossFinal.2.outLines.getLast? = some (stopLine "1.000" "boss1" 2) := by
  refine ⟨?_, ?_, by decide⟩
  · intro ℓ s hopen hcap
    rw [writeEvent_under_cap ℓ s hopen hcap]
    simp
  · intro ℓ s hcap
    by_cases hopen : s.outFileOpen = true
    · by_cases heq : s.eventCount = s.maxEvents
      · rw [writeEvent_at_cap ℓ s hopen heq]
      · rw [writeEvent_past_cap ℓ s (by omega)]
    · rw [writeEvent_closed ℓ s (by simpa using hopen)]

/-- Witness for C3 (amended): the admitted damage event of the `boss1`
scenario increments the counter from 1 to 2 and appends one line. -/
theorem events_captured_accounting_witness :
    (WriteEvent "x" bossStart.2).eventCount =
      (bossStart.2.eventCount + 1) % U32 ∧
    (WriteEvent "x" bossStart.2).outLines.length =
      bossStart.2.outLines.length + 1 :=
  events_captured_accounting.1 "x" bossStart.2 (by decide) (by decide)

/-- C7 fails on the code: `EscapeJson` escapes only the quote, the
backslash, newline, carriage return and tab — not all control
characters.  The backspace character U+0008 passes through unchanged,
and the result is not valid JSON string content. -/
theorem escape_control_counterexample :
    escapeChar (Char.ofNat 8) = [Char.ofNat 8] ∧
    unescape (escapeList [Char.ofNat 8]) = none := by
  decide

/-- C7 (amended): `EscapeJson` escapes the quote and backslash
characters and, among control characters, exactly newline, carriage
return and tab; it performs no other transformation.  Hence for every
input containing no control characters other than those three, the
escaped text is valid JSON string content that decodes back to the
input — in particular names containing quote, backslash and newline
characters round-trip without corruption. -/
theorem escape_roundtrip (str : String)
    (h : ∀ c ∈ str.data, 32 ≤ c.toNat ∨ c = '\n' ∨ c = '\r' ∨ c = '\t') :
    unescape (EscapeJson str).data = some str.data ∧
    (∀ c : Char, ¬(c = '"' ∨ c = '\\' ∨ c = '\n' ∨ c = '\r' ∨ c = '\t') →
      escapeChar c = [c]) := by
  constructor
  · exact unescape_escapeList str.data h
  · intro c hc
    push_neg at hc
    obtain ⟨h1, h2, h3, h4, h5⟩ := hc
    simp [escapeChar, h1, h2, h3, h4, h5]

/-- Witness for C7 (amended): a name containing a quote, a backslash and
a newline escapes to valid JSON string content and decodes back
unchanged. -/
theorem escape_roundtrip_witness :
    unescape (EscapeJson "A\"\\\nB").data = some ("A\"\\\nB").data :=
  (escape_roundtrip "A\"\\\nB" (by decide)).1

end EventRecorder
